import Mathlib

/-!
Verification of the webp2mp4 converter (src/main.go): a shallow embedding of
the strategy selector, the two converters (direct and extraction), the
argument-list construction for the external transcoder invocations, the
even-dimension correction, and the default output-path computation.

External effects (process runs, temp-directory creation and removal, globbing,
image-header probing) are modelled by an explicit environment of their
outcomes plus an event trace recording which external actions the code
performs, in order.
-/

namespace Webp2mp4

/-- Embeds Go makeEven (main.go lines 284-289): if n is odd, return n+1,
else n. Go int modelled as Int; the oddness test n%2 != 0 agrees between
Go truncated mod and Lean emod. -/
def makeEven (n : Int) : Int :=
  if n % 2 ≠ 0 then n + 1 else n

/-- The exact-dimension lanczos scale filter string built with fmt.Sprintf
at main.go lines 157 and 216. -/
def scaleFilter (w h : Int) : String :=
  "scale=" ++ toString w ++ ":" ++ toString h ++ ":flags=lanczos"

/-- The generic even-truncation filter added when dimensions are unknown
(main.go line 221). -/
def genericEvenFilter : String :=
  "scale=\x27trunc(iw/2)*2:trunc(ih/2)*2\x27"

/-- The -vf portion of the direct-conversion ffmpeg argument list
(main.go lines 185-222): probe failure yields width = height = 0; a scale
filter is added only when both are positive and adjustment changed one of
them; otherwise the generic even-truncation filter is added. -/
def directVf (probe : Option (Int × Int)) : List String :=
  let w := (probe.getD (0, 0)).1
  let h := (probe.getD (0, 0)).2
  if 0 < w ∧ 0 < h then
    if makeEven w ≠ w ∨ makeEven h ≠ h then
      ["-vf", scaleFilter (makeEven w) (makeEven h)]
    else []
  else
    ["-vf", genericEvenFilter]

/-- The full ffmpeg argument list built by convertDirectly
(main.go lines 194-230). -/
def convertDirectlyArgs (input output : String) (fps : Int) (bitrate : String)
    (probe : Option (Int × Int)) : List String :=
  ["-f", "webp_pipe", "-i", input, "-c:v", "libx264", "-pix_fmt", "yuv420p",
   "-r", toString fps, "-b:v", bitrate]
  ++ directVf probe
  ++ ["-preset", "medium", "-movflags", "+faststart", "-y", output]

/-- Errors convertDirectly can return: a transcoder failure carrying the
captured combined output (main.go line 243), or the error produced by the
second cmd.Run() on the already started Cmd (main.go line 247). -/
inductive DirectErr where
  | ffmpegFailed (capturedOutput : String)
  | alreadyStarted
  deriving DecidableEq

/-- External actions convertDirectly performs, in order. -/
inductive DEvent where
  | probeDims
  | runFfmpeg (args : List String)
  deriving DecidableEq

/-- Embeds convertDirectly (main.go lines 185-252). The environment supplies
the probe outcome, whether the single ffmpeg process exits zero, and its
captured output. In non-verbose mode the process is run once via
CombinedOutput; afterwards cmd.Run() is called on the same exec.Cmd, which
always fails with the exec already-started error before launching anything,
and that error is returned because the guard requires non-verbose. In
verbose mode cmd.Run() executes the process and its error is discarded
because the guard also requires non-verbose. -/
def convertDirectly (verbose : Bool) (probe : Option (Int × Int))
    (exitOk : Bool) (capturedOut : String) (input output : String)
    (fps : Int) (bitrate : String) : Except DirectErr Unit × List DEvent :=
  let args := convertDirectlyArgs input output fps bitrate probe
  if verbose = false then
    if exitOk = false then
      (Except.error (DirectErr.ffmpegFailed capturedOut),
       [DEvent.probeDims, DEvent.runFfmpeg args])
    else
      (Except.error DirectErr.alreadyStarted,
       [DEvent.probeDims, DEvent.runFfmpeg args])
  else
    (Except.ok (), [DEvent.probeDims, DEvent.runFfmpeg args])

/-- The -vf portion of the frame-reassembly argument list
(main.go lines 155-159). -/
def assembleVf (w h : Int) : List String :=
  if makeEven w ≠ w ∨ makeEven h ≠ h then
    ["-vf", scaleFilter (makeEven w) (makeEven h)]
  else []

/-- The full ffmpeg argument list built for frame reassembly
(main.go lines 147-167). -/
def createVideoArgs (fps : Int) (bitrate : String) (w h : Int)
    (tempDir output : String) : List String :=
  ["-framerate", toString fps, "-i", tempDir ++ "/frame_%03d.png",
   "-c:v", "libx264", "-pix_fmt", "yuv420p", "-b:v", bitrate]
  ++ assembleVf w h
  ++ ["-preset", "medium", "-movflags", "+faststart", "-y", output]

/-- Errors convertViaExtraction can return, one per return site
(main.go lines 81, 114, 121, 132, 179). -/
inductive XErr where
  | tempDirFailed
  | extractFailed
  | noFrames
  | dimsFailed (cause : String)
  | assembleFailed
  deriving DecidableEq

/-- External actions convertViaExtraction performs, in order. -/
inductive EEvent where
  | createTempDir
  | runFfmpegExtract
  | runConvertFallback
  | globFrames
  | readDims
  | runFfmpegAssemble (args : List String)
  | removeTempDir
  deriving DecidableEq

/-- Outcomes of the external actions convertViaExtraction depends on:
whether temp-directory creation succeeds, whether the primary ffmpeg
extraction and the ImageMagick fallback exit zero, the frame files the
glob finds, the dimension read of the first frame, and whether the
reassembly ffmpeg exits zero. -/
structure ExtractEnv where
  tempDirOk : Bool
  tempDir : String
  ffmpegExtractOk : Bool
  convertOk : Bool
  frames : List String
  dims : Except String (Int × Int)
  assembleOk : Bool

/-- The body of convertViaExtraction after the temp directory exists
(main.go lines 89-182): primary extraction, ImageMagick fallback on its
failure, the zero-frames check, the dimension read of the first frame, and
the reassembly invocation. Returns the result together with the trace of
external actions. -/
def extractBody (env : ExtractEnv) (fps : Int) (bitrate output : String) :
    Except XErr Unit × List EEvent :=
  let extractEvents :=
    if env.ffmpegExtractOk then [EEvent.runFfmpegExtract]
    else [EEvent.runFfmpegExtract, EEvent.runConvertFallback]
  if env.ffmpegExtractOk = false ∧ env.convertOk = false then
    (Except.error XErr.extractFailed, extractEvents)
  else if env.frames.isEmpty then
    (Except.error XErr.noFrames, extractEvents ++ [EEvent.globFrames])
  else
    match env.dims with
    | Except.error c =>
      (Except.error (XErr.dimsFailed c),
       extractEvents ++ [EEvent.globFrames, EEvent.readDims])
    | Except.ok (w, h) =>
      let args := createVideoArgs fps bitrate w h env.tempDir output
      if env.assembleOk then
        (Except.ok (),
         extractEvents ++ [EEvent.globFrames, EEvent.readDims,
                           EEvent.runFfmpegAssemble args])
      else
        (Except.error XErr.assembleFailed,
         extractEvents ++ [EEvent.globFrames, EEvent.readDims,
                           EEvent.runFfmpegAssemble args])

/-- Embeds convertViaExtraction (main.go lines 77-183). The deferred
os.RemoveAll registered right after a successful TempDir call is modelled
by appending the removal action to the trace of every return path of the
body; when TempDir itself fails the function returns before the defer is
registered and nothing is removed. -/
def convertViaExtraction (env : ExtractEnv) (fps : Int)
    (bitrate output : String) : Except XErr Unit × List EEvent :=
  if env.tempDirOk = false then
    (Except.error XErr.tempDirFailed, [EEvent.createTempDir])
  else
    let p := extractBody env fps bitrate output
    (p.1, EEvent.createTempDir :: p.2 ++ [EEvent.removeTempDir])

/-- Errors the selector can surface. -/
inductive SelErr where
  | inputMissing
  | direct (e : DirectErr)
  | extraction (e : XErr)
  deriving DecidableEq

/-- Which converter the selector invoked. -/
inductive ConvCall where
  | direct
  | extraction
  deriving DecidableEq

/-- Embeds convertWebPToMP4 (main.go lines 54-75): the input-existence
check, then the method dispatch. The two converters are abstracted by their
results; the trace records which converters are invoked, in order. -/
def convertWebPToMP4 (inputExists : Bool) (method : String)
    (directRes : Except DirectErr Unit) (extractRes : Except XErr Unit) :
    Except SelErr Unit × List ConvCall :=
  if inputExists = false then
    (Except.error SelErr.inputMissing, [])
  else if method = "auto" then
    match directRes with
    | Except.ok () => (Except.ok (), [ConvCall.direct])
    | Except.error _ =>
      (extractRes.mapError SelErr.extraction,
       [ConvCall.direct, ConvCall.extraction])
  else if method = "extract" then
    (extractRes.mapError SelErr.extraction, [ConvCall.extraction])
  else
    (directRes.mapError SelErr.direct, [ConvCall.direct])

/-- Embeds the scan inside filepath.Ext: walk the path backwards from the
end; stop with empty at a path separator or the start; at a dot return the
dot and everything after it. The argument is the reversed path; acc holds
the characters already passed, in original order. -/
def extRevAux (acc : List Char) : List Char → List Char
  | [] => []
  | c :: rest =>
    if c = '/' then []
    else if c = '.' then c :: acc
    else extRevAux (c :: acc) rest

/-- Embeds Go filepath.Ext on a path (strings as char lists). -/
def filepathExt (s : List Char) : List Char :=
  extRevAux [] s.reverse

/-- Embeds Go strings.TrimSuffix: drop the suffix when present. -/
def trimSuffix (s suffix : List Char) : List Char :=
  if suffix.isSuffixOf s then s.take (s.length - suffix.length) else s

/-- Embeds main.go lines 42-45: the default output path is the input with
its extension trimmed and ".mp4" appended. -/
def defaultOutput (input : List Char) : List Char :=
  trimSuffix input (filepathExt input) ++ ".mp4".toList

/-! ## Helper lemmas about the even-dimension correction -/

theorem makeEven_mod (n : Int) : makeEven n % 2 = 0 := by
  unfold makeEven; split_ifs with h <;> omega

theorem makeEven_of_even (n : Int) (h : n % 2 = 0) : makeEven n = n := by
  unfold makeEven; split_ifs with h2 <;> omega

theorem makeEven_of_odd (n : Int) (h : n % 2 ≠ 0) : makeEven n = n + 1 := by
  unfold makeEven; split_ifs with h2 <;> omega

/-- C3: for every dimension pair with at least one odd value, the corrected
dimensions are both even, and each corrected value equals the original when
it was even or the original plus one when it was odd, never the original
minus one or the original plus two. -/
theorem makeEven_correction (w h : Int) (hodd : w % 2 ≠ 0 ∨ h % 2 ≠ 0) :
    makeEven w % 2 = 0 ∧ makeEven h % 2 = 0 ∧
    (w % 2 = 0 → makeEven w = w) ∧ (w % 2 ≠ 0 → makeEven w = w + 1) ∧
    (h % 2 = 0 → makeEven h = h) ∧ (h % 2 ≠ 0 → makeEven h = h + 1) ∧
    makeEven w ≠ w - 1 ∧ makeEven w ≠ w + 2 ∧
    makeEven h ≠ h - 1 ∧ makeEven h ≠ h + 2 := by
  refine ⟨makeEven_mod w, makeEven_mod h,
    makeEven_of_even w, makeEven_of_odd w,
    makeEven_of_even h, makeEven_of_odd h, ?_, ?_, ?_, ?_⟩ <;>
    unfold makeEven <;> split_ifs <;> omega

/-- C3 witness at the concrete pair (3, 4). -/
theorem makeEven_correction_witness :
    ((3 : Int) % 2 ≠ 0 ∨ (4 : Int) % 2 ≠ 0) ∧
    (makeEven 3 % 2 = 0 ∧ makeEven 4 % 2 = 0 ∧
     ((3 : Int) % 2 = 0 → makeEven 3 = 3) ∧
     ((3 : Int) % 2 ≠ 0 → makeEven 3 = 3 + 1) ∧
     ((4 : Int) % 2 = 0 → makeEven 4 = 4) ∧
     ((4 : Int) % 2 ≠ 0 → makeEven 4 = 4 + 1) ∧
     makeEven 3 ≠ 3 - 1 ∧ makeEven 3 ≠ 3 + 2 ∧
     makeEven 4 ≠ 4 - 1 ∧ makeEven 4 ≠ 4 + 2) :=
  ⟨Or.inl (by decide), makeEven_correction 3 4 (Or.inl (by decide))⟩

/-- C4: when the probed dimensions are known, positive and both already
even, neither the direct-conversion argument list nor the reassembly
argument list contains a -vf scaling filter: each equals the base list with
nothing appended between the rate controls and the output options. -/
theorem even_dims_no_scale_filter (w h : Int) (hw : 0 < w) (hh : 0 < h)
    (hwe : w % 2 = 0) (hhe : h % 2 = 0)
    (input output bitrate tempDir : String) (fps : Int) :
    convertDirectlyArgs input output fps bitrate (some (w, h)) =
      ["-f", "webp_pipe", "-i", input, "-c:v", "libx264", "-pix_fmt",
       "yuv420p", "-r", toString fps, "-b:v", bitrate,
       "-preset", "medium", "-movflags", "+faststart", "-y", output] ∧
    createVideoArgs fps bitrate w h tempDir output =
      ["-framerate", toString fps, "-i", tempDir ++ "/frame_%03d.png",
       "-c:v", "libx264", "-pix_fmt", "yuv420p", "-b:v", bitrate,
       "-preset", "medium", "-movflags", "+faststart", "-y", output] := by
  have hw' : makeEven w = w := makeEven_of_even w hwe
  have hh' : makeEven h = h := makeEven_of_even h hhe
  constructor
  · simp [convertDirectlyArgs, directVf, hw, hh, hw', hh']
  · simp [createVideoArgs, assembleVf, hw', hh']

/-- C4 witness at dimensions (2, 4) and concrete strings. -/
theorem even_dims_no_scale_filter_witness :
    (0 : Int) < 2 ∧ (0 : Int) < 4 ∧ (2 : Int) % 2 = 0 ∧ (4 : Int) % 2 = 0 ∧
    (convertDirectlyArgs "a.webp" "a.mp4" 30 "2M" (some (2, 4)) =
      ["-f", "webp_pipe", "-i", "a.webp", "-c:v", "libx264", "-pix_fmt",
       "yuv420p", "-r", toString (30 : Int), "-b:v", "2M",
       "-preset", "medium", "-movflags", "+faststart", "-y", "a.mp4"] ∧
    createVideoArgs 30 "2M" 2 4 "/tmp/w" "a.mp4" =
      ["-framerate", toString (30 : Int), "-i", "/tmp/w" ++ "/frame_%03d.png",
       "-c:v", "libx264", "-pix_fmt", "yuv420p", "-b:v", "2M",
       "-preset", "medium", "-movflags", "+faststart", "-y", "a.mp4"]) :=
  ⟨by decide, by decide, by decide, by decide,
   even_dims_no_scale_filter 2 4 (by decide) (by decide) (by decide)
     (by decide) "a.webp" "a.mp4" "2M" "/tmp/w" 30⟩

/-- C8: when the dimension probe fails, the direct conversion still
performs its single transcoder invocation (probe failure is non-fatal),
and the invoked argument list carries the generic even-truncation -vf
filter rather than an exact-dimension scale filter. -/
theorem probe_failure_generic_filter (verbose exitOk : Bool)
    (capturedOut input output bitrate : String) (fps : Int) :
    (convertDirectly verbose none exitOk capturedOut input output
        fps bitrate).2 =
      [DEvent.probeDims, DEvent.runFfmpeg
        (["-f", "webp_pipe", "-i", input, "-c:v", "libx264", "-pix_fmt",
          "yuv420p", "-r", toString fps, "-b:v", bitrate] ++
         ["-vf", genericEvenFilter] ++
         ["-preset", "medium", "-movflags", "+faststart", "-y", output])] := by
  cases verbose <;> cases exitOk <;>
    simp [convertDirectly, convertDirectlyArgs, directVf]

/-- C2 evidence: with the transcoder exiting zero in non-verbose mode the
direct converter still returns an error, because the second cmd.Run() on
the already started Cmd fails; and with the transcoder exiting non-zero in
verbose mode it returns success, because the guard discards the error. -/
theorem convertDirectly_run_bug :
    (convertDirectly false (some (2, 2)) true "" "in.webp" "out.mp4"
        30 "2M").1 = Except.error DirectErr.alreadyStarted ∧
    (convertDirectly true (some (2, 2)) false "" "in.webp" "out.mp4"
        30 "2M").1 = Except.ok () := by
  exact ⟨rfl, rfl⟩

/-- C5: whenever the temp directory was created, the scratch directory is
removed (the deferred removal is the last external action) on every exit
path of the extraction converter, success or failure. -/
theorem scratch_dir_always_removed (env : ExtractEnv) (fps : Int)
    (bitrate output : String) (h : env.tempDirOk = true) :
    (convertViaExtraction env fps bitrate output).2.getLast? =
      some EEvent.removeTempDir := by
  unfold convertViaExtraction
  rw [h, if_neg (by simp)]
  exact List.getLast?_concat _

/-- A fully successful extraction run. -/
def envHappy : ExtractEnv :=
  { tempDirOk := true, tempDir := "/tmp/webp2mp4_0", ffmpegExtractOk := true,
    convertOk := true, frames := ["frame_001.png", "frame_002.png"],
    dims := Except.ok (3, 4), assembleOk := true }

/-- C5 witness on a fully successful run. -/
theorem scratch_dir_always_removed_witness :
    envHappy.tempDirOk = true ∧
    (convertViaExtraction envHappy 30 "2M" "out.mp4").2.getLast? =
      some EEvent.removeTempDir :=
  ⟨rfl, scratch_dir_always_removed envHappy 30 "2M" "out.mp4" rfl⟩

/-- A run where both extraction processes fail and no frames appear. -/
def envBothExtractFail : ExtractEnv :=
  { tempDirOk := true, tempDir := "/tmp/webp2mp4_1", ffmpegExtractOk := false,
    convertOk := false, frames := [], dims := Except.error "eof",
    assembleOk := true }

/-- C6 counterexample: when both the primary and the fallback extraction
processes fail, zero frame files exist, yet the function returns the
frame-extraction-failed error, not the no-frames-extracted error the claim
names. -/
theorem no_frames_claim_counterexample :
    (convertViaExtraction envBothExtractFail 30 "2M" "out.mp4").1 =
      Except.error XErr.extractFailed ∧
    Except.error XErr.extractFailed ≠
      (Except.error XErr.noFrames : Except XErr Unit) :=
  ⟨rfl, by simp⟩

/-- C6 amended: when the extraction step itself succeeded (the primary
process exited zero, or the fallback did) and zero frame files exist, the
function returns the no-frames-extracted error and never performs the
reassembly invocation. -/
theorem no_frames_error_when_extraction_ok (env : ExtractEnv) (fps : Int)
    (bitrate output : String) (h1 : env.tempDirOk = true)
    (h2 : env.frames = [])
    (h3 : env.ffmpegExtractOk = true ∨ env.convertOk = true) :
    (convertViaExtraction env fps bitrate output).1 =
      Except.error XErr.noFrames ∧
    ∀ a, EEvent.runFfmpegAssemble a ∉
      (convertViaExtraction env fps bitrate output).2 := by
  have hguard : ¬(env.ffmpegExtractOk = false ∧ env.convertOk = false) := by
    rcases h3 with h | h <;> simp [h]
  constructor
  · simp [convertViaExtraction, extractBody, h1, h2, hguard]
  · intro a
    cases hf : env.ffmpegExtractOk <;> cases hc : env.convertOk <;>
      simp_all [convertViaExtraction, extractBody]

/-- A run where the primary extraction exits zero but yields no frames. -/
def envPrimaryOkNoFrames : ExtractEnv :=
  { tempDirOk := true, tempDir := "/tmp/webp2mp4_2", ffmpegExtractOk := true,
    convertOk := false, frames := [], dims := Except.error "eof",
    assembleOk := true }

/-- C6 amended witness. -/
theorem no_frames_error_when_extraction_ok_witness :
    envPrimaryOkNoFrames.tempDirOk = true ∧
    envPrimaryOkNoFrames.frames = [] ∧
    (envPrimaryOkNoFrames.ffmpegExtractOk = true ∨
     envPrimaryOkNoFrames.convertOk = true) ∧
    ((convertViaExtraction envPrimaryOkNoFrames 30 "2M" "out.mp4").1 =
       Except.error XErr.noFrames ∧
     ∀ a, EEvent.runFfmpegAssemble a ∉
       (convertViaExtraction envPrimaryOkNoFrames 30 "2M" "out.mp4").2) :=
  ⟨rfl, rfl, Or.inl rfl,
   no_frames_error_when_extraction_ok envPrimaryOkNoFrames 30 "2M" "out.mp4"
     rfl rfl (Or.inl rfl)⟩

/-- C7: when frames were extracted but reading the first frame dimensions
fails, the extraction converter returns an error wrapping the underlying
cause and never performs the reassembly invocation. -/
theorem dims_failure_fatal (env : ExtractEnv) (fps : Int)
    (bitrate output : String) (c : String) (h1 : env.tempDirOk = true)
    (h2 : env.ffmpegExtractOk = true ∨ env.convertOk = true)
    (h3 : env.frames ≠ []) (h4 : env.dims = Except.error c) :
    (convertViaExtraction env fps bitrate output).1 =
      Except.error (XErr.dimsFailed c) ∧
    ∀ a, EEvent.runFfmpegAssemble a ∉
      (convertViaExtraction env fps bitrate output).2 := by
  have hguard : ¬(env.ffmpegExtractOk = false ∧ env.convertOk = false) := by
    rcases h2 with h | h <;> simp [h]
  have hne : env.frames.isEmpty = false := by
    cases hf : env.frames <;> simp_all
  constructor
  · simp [convertViaExtraction, extractBody, h1, hguard, hne, h4]
  · intro a
    cases hf : env.ffmpegExtractOk <;> cases hc : env.convertOk <;>
      simp_all [convertViaExtraction, extractBody]

/-- A run where the dimension read of the first frame fails. -/
def envDimsFail : ExtractEnv :=
  { tempDirOk := true, tempDir := "/tmp/webp2mp4_3", ffmpegExtractOk := true,
    convertOk := true, frames := ["frame_001.png"],
    dims := Except.error "bad header", assembleOk := true }

/-- C7 witness. -/
theorem dims_failure_fatal_witness :
    envDimsFail.tempDirOk = true ∧
    (envDimsFail.ffmpegExtractOk = true ∨ envDimsFail.convertOk = true) ∧
    envDimsFail.frames ≠ [] ∧
    envDimsFail.dims = Except.error "bad header" ∧
    ((convertViaExtraction envDimsFail 30 "2M" "out.mp4").1 =
       Except.error (XErr.dimsFailed "bad header") ∧
     ∀ a, EEvent.runFfmpegAssemble a ∉
       (convertViaExtraction envDimsFail 30 "2M" "out.mp4").2) :=
  ⟨rfl, Or.inl rfl, by simp [envDimsFail], rfl,
   dims_failure_fatal envDimsFail 30 "2M" "out.mp4" "bad header" rfl
     (Or.inl rfl) (by simp [envDimsFail]) rfl⟩

/-- C1: in auto mode the selector invokes the direct converter first; when
it succeeds the extraction converter is never invoked and the selector
succeeds; when it fails the extraction converter is invoked exactly once,
the direct error is discarded, and the extraction result is the final
result. -/
theorem auto_mode_fallback (e : DirectErr) (extractRes : Except XErr Unit) :
    convertWebPToMP4 true "auto" (Except.ok ()) extractRes =
      (Except.ok (), [ConvCall.direct]) ∧
    ConvCall.extraction ∉
      (convertWebPToMP4 true "auto" (Except.ok ()) extractRes).2 ∧
    convertWebPToMP4 true "auto" (Except.error e) extractRes =
      (extractRes.mapError SelErr.extraction,
       [ConvCall.direct, ConvCall.extraction]) ∧
    List.count ConvCall.extraction
      (convertWebPToMP4 true "auto" (Except.error e) extractRes).2 = 1 := by
  refine ⟨?_, ?_, ?_, ?_⟩ <;> simp [convertWebPToMP4]

/-- C10: any method string other than auto and extract, recognized or not,
makes the selector invoke the direct converter alone and propagate its
result; no validation error arises. -/
theorem unrecognized_method_runs_direct (method : String)
    (directRes : Except DirectErr Unit) (extractRes : Except XErr Unit)
    (h1 : method ≠ "auto") (h2 : method ≠ "extract") :
    convertWebPToMP4 true method directRes extractRes =
      (directRes.mapError SelErr.direct, [ConvCall.direct]) := by
  simp [convertWebPToMP4, h1, h2]

/-- C10 witness at the unrecognized method string foo. -/
theorem unrecognized_method_runs_direct_witness :
    ("foo" : String) ≠ "auto" ∧ ("foo" : String) ≠ "extract" ∧
    convertWebPToMP4 true "foo" (Except.ok ()) (Except.ok ()) =
      ((Except.ok () : Except DirectErr Unit).mapError SelErr.direct,
       [ConvCall.direct]) :=
  ⟨by decide, by decide,
   unrecognized_method_runs_direct "foo" (Except.ok ()) (Except.ok ())
     (by decide) (by decide)⟩

/-- C9: with no explicit output path, the default output is the input path
with its extension replaced by .mp4; for every stem, stem.webp maps to
stem.mp4, and in particular clip.webp maps to clip.mp4. -/
theorem default_output_extension_replaced :
    (∀ stem : List Char,
      defaultOutput (stem ++ ".webp".toList) = stem ++ ".mp4".toList) ∧
    defaultOutput "clip.webp".toList = "clip.mp4".toList := by
  constructor
  · intro stem
    have hext : filepathExt (stem ++ ['.', 'w', 'e', 'b', 'p']) =
        ['.', 'w', 'e', 'b', 'p'] := by
      unfold filepathExt
      rw [List.reverse_append]
      rfl
    have hs : (['.', 'w', 'e', 'b', 'p'] : List Char).isSuffixOf
        (stem ++ ['.', 'w', 'e', 'b', 'p']) = true := by
      simp
    have htrim : trimSuffix (stem ++ ['.', 'w', 'e', 'b', 'p'])
        ['.', 'w', 'e', 'b', 'p'] = stem := by
      unfold trimSuffix
      rw [if_pos hs, List.length_append]
      show (stem ++ ['.', 'w', 'e', 'b', 'p']).take
        (stem.length + 5 - 5) = stem
      rw [Nat.add_sub_cancel]
      exact List.take_left stem _
    show trimSuffix (stem ++ ".webp".toList)
        (filepathExt (stem ++ ".webp".toList)) ++ ".mp4".toList =
      stem ++ ".mp4".toList
    rw [show (".webp".toList : List Char) = ['.', 'w', 'e', 'b', 'p']
          from rfl, hext, htrim]
  · decide

end Webp2mp4
